import Mathlib

/-!
# Verification of the descarteslabs workflows typed-proxy core

A shallow embedding of the typed proxy-value object model of the
`descarteslabs.workflows.types` package: native-value promotion, explicit
casts, operator dispatch to graph (graft) nodes, the identifier/parameter
facility, the lazy axis-shape type-resolution table, and graft
serialization.  The identifier/parameter facility is translated from
`descarteslabs/workflows/types/identifier/identifier.py`; the remaining
components are modelled from the specification (their implementation
modules are not part of the source tree under verification, only their
tests and callers are).
-/

namespace DLW

/-! ## Native values and proxy types -/

/-- A native (Python-side) value that can be embedded as a graft literal.
Floats carry a rational payload: the core never performs arithmetic on
them, they only pass through opaquely into literal nodes. -/
inductive NativeVal
| int (n : Int)
| float (x : Rat)
| bool (b : Bool)
| str (s : String)
| nullv
deriving DecidableEq, Repr

/-- The static proxy types of the workflows type system that the claims
touch: the numeric primitives, `Bool`, `Str`, `NoneType`, the generic
(unparameterized) `List`, concrete `List[T]`, and the geospatial types
used by the stats return-type table. -/
inductive PTy
| IntT
| FloatT
| BoolT
| StrT
| NoneT
| ListG
| ListOf (t : PTy)
| ImageT
| ImageCollectionT
deriving DecidableEq, Repr

/-- Display name of a proxy type, as used in operation names (`"Int.cast"`)
and error messages. -/
def typeName : PTy → String
| .IntT => "Int"
| .FloatT => "Float"
| .BoolT => "Bool"
| .StrT => "Str"
| .NoneT => "NoneType"
| .ListG => "List"
| .ListOf t => "List[" ++ typeName t ++ "]"
| .ImageT => "Image"
| .ImageCollectionT => "ImageCollection"

/-- Modelled from the spec: `is_generic` (from the missing
`workflows/types/core/core.py`) — a *generic* (unparameterized) container
type, which may not be used as a promotion target or parameter type.  In
the embedded type universe only the bare `List` is generic. -/
def is_generic : PTy → Bool
| .ListG => true
| _ => false

/-! ## Graph representation -/

/-- A computation-graph node, as held by a `ProxyValue`: a literal, a named
parameter reference (`KeyRef`), or an operation application over an
ordered list of argument nodes. -/
inductive Node
| lit (v : NativeVal)
| keyref (name : String)
| apply (op : String) (args : List Node)
deriving Repr

/-- An immutable proxy value: a static proxy type paired with the graph
node that computes it. -/
structure ProxyValue where
  ty : PTy
  node : Node
deriving Repr

/-- An argument to promotion or an operator: either a native value or an
existing proxy value. -/
inductive Value
| native (v : NativeVal)
| proxy (p : ProxyValue)
deriving Repr

/-! ## Promotion engine

Modelled from the spec: `promote(value, target_type)` of the Type Registry
& Promotion Engine (the implementation module `workflows/types/core` is
not in the source tree; its behavior is pinned down by the spec together
with `tests/test_number.py`). -/

/-- Modelled from the spec: a `ProxyTypeError`, carrying the attempted
value, the source proxy type (when the value was already a proxy value),
and the target type; the same-family mismatch case is distinguished from
the generic cannot-promote case. -/
inductive PromoteFailure
| needExplicitCast (value : ProxyValue) (srcTy targetTy : PTy)
| noConversion (value : NativeVal) (targetTy : PTy)
| genericTarget (targetTy : PTy)
deriving Repr

/-- The explicit-cast instruction appearing in cross-proxy-type promotion
errors (asserted on by `test_wrong_proxytypes`). -/
def castHint (target : PTy) : String :=
  "You need to convert it explicitly, like `" ++ typeName target ++ "(x)`"

/-- Render a promotion failure as its user-facing message; only the
same-family mismatch message carries the explicit-cast instruction. -/
def renderMsg : PromoteFailure → String
| .needExplicitCast _ s t =>
    "Cannot promote " ++ typeName s ++ " to " ++ typeName t ++ ": " ++ castHint t
| .noConversion _ t =>
    "Cannot promote to " ++ typeName t ++ ": no such conversion exists"
| .genericTarget t =>
    "Cannot promote to generic type " ++ typeName t

/-- Does a native value match a proxy type's expected native
representation (the registered native-type to proxy-type table)? -/
def expectedNative : PTy → NativeVal → Bool
| .IntT, .int _ => true
| .FloatT, .float _ => true
| .BoolT, .bool _ => true
| .StrT, .str _ => true
| .NoneT, .nullv => true
| _, _ => false

/-- Modelled from the spec: `promote(value, target_type)`.
* a generic target type is rejected;
* a proxy value already of the target type is returned unchanged
  (identity short-circuit);
* a proxy value of any other proxy type fails with the explicit-cast
  error — cross-type coercion is never implicit;
* a native value matching the target's native representation is wrapped
  as a literal node; otherwise the generic cannot-promote error. -/
def promote (v : Value) (target : PTy) : Except PromoteFailure ProxyValue :=
  if is_generic target then .error (.genericTarget target)
  else
    match v with
    | .proxy p =>
      if p.ty = target then .ok p
      else .error (.needExplicitCast p p.ty target)
    | .native n =>
      if expectedNative target n then .ok ⟨target, .lit n⟩
      else .error (.noConversion n target)

/-- Modelled from the spec: the constructor call `T(value)` (explicit
cast).  A native value is wrapped as a literal; a proxy value of the same
type passes through unchanged (`test_explicit_cast_passthrough`); a proxy
value of a different type becomes an Application node named
`"T.cast"` whose single argument is the source node. -/
def construct (target : PTy) (v : Value) : Except PromoteFailure ProxyValue :=
  if is_generic target then .error (.genericTarget target)
  else
    match v with
    | .proxy p =>
      if p.ty = target then .ok p
      else .ok ⟨target, .apply (typeName target ++ ".cast") [p.node]⟩
    | .native n =>
      if expectedNative target n then .ok ⟨target, .lit n⟩
      else .error (.noConversion n target)

/-! ## Graft serialization

Modelled from the spec: a graph is encoded as an associative mapping from
node id (string) to node body plus a reserved `"returns"` key naming the
root; node bodies are literals, operation arrays (operation-name string
followed by argument node ids), or a named-reference marker.  Ids are
assigned deterministically by a left-to-right post-order traversal. -/

/-- A serialized node body in the graft wire format. -/
inductive GraftBody
| litB (v : NativeVal)
| applyB (op : String) (argIds : List String)
| keyrefB (name : String)
deriving DecidableEq, Repr

/-- A serialized graft: node-id/body pairs plus the distinguished root
pointer (the `"returns"` key). -/
structure Graft where
  nodes : List (String × GraftBody)
  returns : String
deriving DecidableEq, Repr

mutual
/-- Serialize one node starting from a fresh-id counter, returning the
emitted entries, this node's id, and the next counter. -/
def serNode : Node → Nat → List (String × GraftBody) × String × Nat
  | .lit v, n => ([(toString n, .litB v)], toString n, n + 1)
  | .keyref name, n => ([(toString n, .keyrefB name)], toString n, n + 1)
  | .apply op args, n =>
    let r := serArgs args n
    (r.1 ++ [(toString r.2.2, .applyB op r.2.1)], toString r.2.2, r.2.2 + 1)

/-- Serialize a list of argument nodes left to right. -/
def serArgs : List Node → Nat → List (String × GraftBody) × List String × Nat
  | [], n => ([], [], n)
  | a :: as, n =>
    let r1 := serNode a n
    let r2 := serArgs as r1.2.2
    (r1.1 ++ r2.1, r1.2.1 :: r2.2.1, r2.2.2)
end

/-- Serialize a proxy value's graph for submission. -/
def serialize (root : Node) : Graft :=
  let r := serNode root 0
  ⟨r.1, r.2.1⟩

/-! ## Operator dispatch layer

Modelled from the spec: each supported operator on a receiver type
declares an acceptable-type set for its operand and a result-type policy;
the operand is promoted against the acceptable types in order; no match
yields the not-implemented sentinel (`none`) so the other operand's
reflected handler can run; full dispatch is the explicit two-phase
try-left-then-reflected-right scheme, surfacing a type error only when
both sides decline.  The operator tables follow
`tests/test_number.py::TestAllOperators`. -/

/-- Binary arithmetic operators whose result type is computed by the
binary numeric promotion rule. -/
def arithOps : List String :=
  ["__add__", "__sub__", "__mul__", "__floordiv__", "__mod__", "__pow__"]

/-- Comparison operators: fixed `Bool` result. -/
def cmpOps : List String :=
  ["__eq__", "__ne__", "__lt__", "__le__", "__gt__", "__ge__"]

/-- True-division operators: fixed `Float` result. -/
def divOps : List String := ["__div__", "__truediv__"]

/-- Int-only bitwise/shift operators: fixed `Int` result. -/
def bitOps : List String :=
  ["__and__", "__or__", "__xor__", "__lshift__", "__rshift__"]

/-- How an operator determines its result type: the binary numeric
promotion rule, or a fixed per-operator type. -/
inductive ResultPolicy
| binop
| fixed (t : PTy)
deriving DecidableEq, Repr

/-- Modelled from the spec (and pinned by `test_binop_result`):
`_binop_result` — mixing the numeric kinds yields `Float` if either
operand is `Float`, else `Int`. -/
def binop_result (a b : PTy) : PTy :=
  if a = .FloatT ∨ b = .FloatT then .FloatT else .IntT

/-- The acceptable operand types for numeric binary operators. -/
def numericAccept : List PTy := [.IntT, .FloatT]

/-- The operator table: for a receiver type and operator name, the
acceptable operand types and the result-type policy, or `none` when the
receiver does not support the operator at all. -/
def opSpec : PTy → String → Option (List PTy × ResultPolicy)
| .IntT, op =>
    if arithOps.contains op then some (numericAccept, .binop)
    else if divOps.contains op then some (numericAccept, .fixed .FloatT)
    else if cmpOps.contains op then some (numericAccept, .fixed .BoolT)
    else if bitOps.contains op then some ([.IntT], .fixed .IntT)
    else none
| .FloatT, op =>
    if arithOps.contains op then some (numericAccept, .binop)
    else if divOps.contains op then some (numericAccept, .fixed .FloatT)
    else if cmpOps.contains op then some (numericAccept, .fixed .BoolT)
    else none
| _, _ => none

/-- Promote an operand against an acceptable-type list, first match wins;
`none` when no acceptable type matches. -/
def promoteAccept (v : Value) : List PTy → Option ProxyValue
| [] => none
| t :: ts =>
  match promote v t with
  | .ok p => some p
  | .error _ => promoteAccept v ts

/-- The deterministic operation-name encoding: the declaring proxy type
and the operator name joined by a dot (e.g. `"Int.__add__"`). -/
def opName (t : PTy) (op : String) : String :=
  typeName t ++ "." ++ op

/-- The result type an operator policy assigns to promoted operands. -/
def policyResult (pol : ResultPolicy) (a b : PTy) : PTy :=
  match pol with
  | .binop => binop_result a b
  | .fixed t => t

/-- The forward (left-receiver) handler: promote the right operand against
the receiver's acceptable types; on no match return the not-implemented
sentinel; otherwise emit an Application named `"<ReceiverType>.<op>"`
with arguments `[receiver, operand]`. -/
def forwardHandler (op : String) (a : ProxyValue) (b : Value) : Option ProxyValue :=
  match opSpec a.ty op with
  | none => none
  | some (acc, pol) =>
    match promoteAccept b acc with
    | none => none
    | some b2 =>
      some ⟨policyResult pol a.ty b2.ty,
            .apply (opName a.ty op) [a.node, b2.node]⟩

/-- The reflected (right-receiver) handler for forward operator `op`:
promote the *left* operand against the right receiver's acceptable types,
then swap the argument order back to the conventional left/right order
before encoding, naming the operation after the (promoted) left operand's
type. -/
def reflectedHandler (op : String) (b : ProxyValue) (a : Value) : Option ProxyValue :=
  match opSpec b.ty op with
  | none => none
  | some (acc, pol) =>
    match promoteAccept a acc with
    | none => none
    | some a2 =>
      some ⟨policyResult pol a2.ty b.ty,
            .apply (opName a2.ty op) [a2.node, b.node]⟩

/-- The outcome of full two-phase dispatch: a proxy value, or the type
error the caller sees when neither side's handler accepts the operands. -/
inductive DispatchResult
| value (p : ProxyValue)
| typeError
deriving Repr

/-- Full two-phase binary dispatch: try the left operand's handler; on the
not-implemented sentinel try the right operand's reflected handler; when
both decline, the caller sees a type error. -/
def dispatchBinary (op : String) (a b : Value) : DispatchResult :=
  let fwd : Option ProxyValue :=
    match a with
    | .proxy pa => forwardHandler op pa b
    | .native _ => none
  match fwd with
  | some r => .value r
  | none =>
    match b with
    | .proxy pb =>
      match reflectedHandler op pb a with
      | some r => .value r
      | none => .typeError
    | .native _ => .typeError

/-! ## Identifier / parameter facility

Translated from `workflows/types/identifier/identifier.py`. -/

/-- Python's `str.isdigit` restricted to the embedded strings: nonempty
and every character a digit. -/
def pyIsdigit (s : String) : Bool :=
  s.length != 0 && s.toList.all Char.isDigit

/-- A Python `ValueError` with its message. -/
inductive PyValueError
| valueError (msg : String)
deriving DecidableEq, Repr

/-- Modelled from the spec: `graft_client.keyref_graft(name)` (the graft
client module is not in the source tree) — a graph consisting of a named
reference keyed by `name`; `type_._from_graft` wraps it as a proxy value
of the given type.  Translated from `identifier` in `identifier.py`. -/
def identifier (name : String) (type_ : PTy) : ProxyValue :=
  ⟨type_, .keyref name⟩

/-- Translated from `parameter` in `identifier.py`: reject a purely
numeric name, reject a generic type, otherwise build the keyref-backed
proxy value.  No graph lookup or binding occurs. -/
def parameter (name : String) (type_ : PTy) : Except PyValueError ProxyValue :=
  if pyIsdigit name then
    .error (.valueError "Parameter name cannot be a digit")
  else if is_generic type_ then
    .error (.valueError
      "Parameter type cannot be generic, must be concrete (like List[Int], not plain List)")
  else
    .ok (identifier name type_)

/-! ## Lazy type-resolution table

Modelled from the spec: a declarative mapping from argument-shape
descriptors (a single axis name, or a tuple of axis names) to lazily
evaluated type producers; shape keys are canonicalized to tuples before
lookup; `resolve` raises `ValueError` for unrecognized shapes. -/

/-- A shape argument as supplied by callers: an axis-name string, a tuple
of shape elements, or a non-string scalar (which can never name an axis). -/
inductive ShapeArg
| str (s : String)
| int (n : Int)
| tup (elems : List ShapeArg)

/-- Canonicalize a shape to its tuple-of-axis-names form: a bare scalar
becomes the 1-tuple containing it; a tuple must contain only axis-name
strings; anything else is unrecognized. -/
def normalizeShape : ShapeArg → Option (List String)
| .str s => some [s]
| .int _ => none
| .tup es =>
  es.mapM fun e =>
    match e with
    | .str s => some s
    | _ => none

/-- Modelled from the spec: `_resolve_lambdas` — force a declaratively
specified table of shape keys and type thunks into a concrete mapping
from canonicalized shape key to proxy type (computed once and cached for
the owning type; the cached mapping is what `resolve` consults). -/
def resolveLambdas (table : List (ShapeArg × (Unit → PTy))) :
    List (List String × PTy) :=
  table.filterMap fun kv => (normalizeShape kv.1).map fun key => (key, kv.2 ())

/-- Modelled from the spec: `resolve(shape)` over a resolved table —
canonicalize, then look the key up; raise `ValueError` when the shape is
not recognized (wrong element type, or unknown/wrong-arity key). -/
def resolveShape (resolved : List (List String × PTy)) (shape : ShapeArg) :
    Except PyValueError PTy :=
  match normalizeShape shape with
  | none => .error (.valueError "Invalid axis argument")
  | some key =>
    match resolved.find? (fun kv => kv.1 == key) with
    | some kv => .ok kv.2
    | none => .error (.valueError "Unknown axis")

/-- Modelled from the spec: the declarative stats return-type table of
`ImageCollection` (keyed by reduction axis; reducing over `"images"`
yields `Image`, over `"pixels"` yields `ImageCollection`, over both
yields a concrete list of floats), with lazily evaluated type producers. -/
def STATS_RETURN_TYPES : List (ShapeArg × (Unit → PTy)) :=
  [(.str "images", fun _ => .ImageT),
   (.str "pixels", fun _ => .ImageCollectionT),
   (.tup [.str "images", .str "pixels"], fun _ => .ListOf .FloatT)]

/-- The memoized resolved form of `STATS_RETURN_TYPES`. -/
def RESOLVED_STATS_RETURN_TYPES : List (List String × PTy) :=
  resolveLambdas STATS_RETURN_TYPES

/-- Modelled from the spec: `_stats_return_type(axis)` — resolve a
reduction-axis shape against the memoized stats table. -/
def stats_return_type (shape : ShapeArg) : Except PyValueError PTy :=
  resolveShape RESOLVED_STATS_RETURN_TYPES shape

/-! ## Helper lemmas -/

/-- Promoting an existing proxy value against an acceptable-type list can
only ever return that same proxy value: cross-type coercion is never
implicit, so the only successful case is the identity short-circuit. -/
theorem promoteAccept_proxy (p q : ProxyValue) :
    ∀ acc : List PTy, promoteAccept (.proxy p) acc = some q → q = p := by
  intro acc
  induction acc with
  | nil => intro h; simp [promoteAccept] at h
  | cons t ts ih =>
    intro h
    unfold promoteAccept promote at h
    by_cases hg : is_generic t
    · simp [hg] at h
      exact ih h
    · simp only [hg, Bool.false_eq_true, if_false] at h
      by_cases ht : p.ty = t
      · simp [ht] at h
        exact h.symm
      · simp [ht] at h
        exact ih h

/-- On numeric receivers, every arithmetic operator's forward handler
accepts a numeric proxy operand and emits the order-preserving
application node, typed by the binary promotion rule. -/
theorem forwardHandler_numeric (op : String) (hop : op ∈ arithOps)
    (pa pb : ProxyValue)
    (ha : pa.ty = .IntT ∨ pa.ty = .FloatT)
    (hb : pb.ty = .IntT ∨ pb.ty = .FloatT) :
    forwardHandler op pa (.proxy pb) =
      some ⟨binop_result pa.ty pb.ty, .apply (opName pa.ty op) [pa.node, pb.node]⟩ := by
  rcases ha with ha | ha <;> rcases hb with hb | hb <;>
    simp [forwardHandler, opSpec, hop, ha, hb, promoteAccept, promote, is_generic,
      policyResult, binop_result, numericAccept]

/-! ## Claims -/

/-- C1: for every proxy value of a type different from the (concrete)
target type, `promote` fails with the `ProxyTypeError` that instructs an
explicit cast — its message carries the explicit-cast hint and its error
form is distinct from the generic cannot-promote error — while the
explicit cast constructor succeeds, yielding a proxy value of the target
type whose root node is an Application named `"T.cast"` over the source
node. -/
theorem claim_C1_cross_type_promotion_requires_explicit_cast
    (p : ProxyValue) (t : PTy) (hg : is_generic t = false) (hne : p.ty ≠ t) :
    promote (.proxy p) t = .error (.needExplicitCast p p.ty t) ∧
    (∃ pre, renderMsg (.needExplicitCast p p.ty t) = pre ++ castHint t) ∧
    (∀ n u, PromoteFailure.needExplicitCast p p.ty t ≠ .noConversion n u) ∧
    construct t (.proxy p) = .ok ⟨t, .apply (typeName t ++ ".cast") [p.node]⟩ := by
  refine ⟨?_, ?_, ?_, ?_⟩
  · simp [promote, hg, hne]
  · exact ⟨"Cannot promote " ++ typeName p.ty ++ " to " ++ typeName t ++ ": ", rfl⟩
  · intro n u h; cases h
  · simp [construct, hg, hne]

/-- Witness for C1 at `promote(Float(1.0), Int)` and `Int(Float(1.0))`. -/
theorem claim_C1_witness :
    promote (.proxy ⟨.FloatT, .lit (.float 1)⟩) .IntT =
      .error (.needExplicitCast ⟨.FloatT, .lit (.float 1)⟩ .FloatT .IntT) ∧
    construct .IntT (.proxy ⟨.FloatT, .lit (.float 1)⟩) =
      .ok ⟨.IntT, .apply "Int.cast" [.lit (.float 1)]⟩ :=
  ⟨(claim_C1_cross_type_promotion_requires_explicit_cast
      ⟨.FloatT, .lit (.float 1)⟩ .IntT rfl (by decide)).1,
   (claim_C1_cross_type_promotion_requires_explicit_cast
      ⟨.FloatT, .lit (.float 1)⟩ .IntT rfl (by decide)).2.2.2⟩

/-- C2: promotion is idempotent through the identity short-circuit: when a
native value promotes to `T`, promoting the result to `T` again returns
it unchanged (the already-correct-type path returns its argument
itself). -/
theorem claim_C2_promotion_idempotent
    (x : NativeVal) (T : PTy) (p : ProxyValue)
    (h : promote (.native x) T = .ok p) :
    promote (.proxy p) T = .ok p := by
  unfold promote at h ⊢
  by_cases hg : is_generic T
  · simp [hg] at h
  · simp only [hg, Bool.false_eq_true, if_false] at h ⊢
    by_cases he : expectedNative T x
    · simp [he] at h
      subst h
      simp
    · simp [he] at h

/-- Witness for C2 at `promote(promote(1, Int), Int)`. -/
theorem claim_C2_witness :
    promote (.proxy ⟨.IntT, .lit (.int 1)⟩) .IntT = .ok ⟨.IntT, .lit (.int 1)⟩ :=
  claim_C2_promotion_idempotent (.int 1) .IntT ⟨.IntT, .lit (.int 1)⟩ rfl

/-- C3: binary numeric promotion is deterministic and symmetric over the
numeric kinds: `_binop_result` yields `Float` exactly when either operand
is `Float` and `Int` exactly when both are `Int`, the rule is symmetric,
and every arithmetic operator's handler realizes it in both operand
orders. -/
theorem claim_C3_binop_promotion_deterministic_symmetric (a b : PTy)
    (ha : a = .IntT ∨ a = .FloatT) (hb : b = .IntT ∨ b = .FloatT) :
    (binop_result a b = .FloatT ↔ (a = .FloatT ∨ b = .FloatT)) ∧
    (binop_result a b = .IntT ↔ (a = .IntT ∧ b = .IntT)) ∧
    binop_result a b = binop_result b a ∧
    (∀ op, op ∈ arithOps →
      ∀ (pa pb : ProxyValue), pa.ty = a → pb.ty = b →
        ∃ r1 r2,
          forwardHandler op pa (.proxy pb) = some r1 ∧
          r1.ty = binop_result a b ∧
          forwardHandler op pb (.proxy pa) = some r2 ∧
          r2.ty = binop_result b a) := by
  refine ⟨?_, ?_, ?_, ?_⟩
  · rcases ha with rfl | rfl <;> rcases hb with rfl | rfl <;> decide
  · rcases ha with rfl | rfl <;> rcases hb with rfl | rfl <;> decide
  · rcases ha with rfl | rfl <;> rcases hb with rfl | rfl <;> decide
  · intro op hop pa pb hpa hpb
    refine ⟨_, _, forwardHandler_numeric op hop pa pb ?_ ?_, ?_,
      forwardHandler_numeric op hop pb pa ?_ ?_, ?_⟩
    · rw [hpa]; exact ha
    · rw [hpb]; exact hb
    · rw [hpa, hpb]
    · rw [hpb]; exact hb
    · rw [hpa]; exact ha
    · rw [hpb, hpa]

/-- Witness for C3 at the `Int`/`Float` mix with `__add__`. -/
theorem claim_C3_witness :
    binop_result .IntT .FloatT = .FloatT ∧
    binop_result .FloatT .IntT = .FloatT ∧
    (∃ r1 r2,
      forwardHandler "__add__" ⟨.IntT, .lit (.int 0)⟩
          (.proxy ⟨.FloatT, .lit (.float 0)⟩) = some r1 ∧
      r1.ty = binop_result .IntT .FloatT ∧
      forwardHandler "__add__" ⟨.FloatT, .lit (.float 0)⟩
          (.proxy ⟨.IntT, .lit (.int 0)⟩) = some r2 ∧
      r2.ty = binop_result .FloatT .IntT) := by
  have h := claim_C3_binop_promotion_deterministic_symmetric .IntT .FloatT
    (Or.inl rfl) (Or.inr rfl)
  exact ⟨h.1.mpr (Or.inr rfl), (h.2.2.1 ▸ h.1.mpr (Or.inr rfl) : _),
    h.2.2.2 "__add__" (by simp [arithOps])
      ⟨.IntT, .lit (.int 0)⟩ ⟨.FloatT, .lit (.float 0)⟩ rfl rfl⟩

/-- C4: the lazy type-resolution table canonicalizes shape keys — a bare
scalar and the one-tuple containing the same scalar resolve identically
against any resolved table, in particular both forms of `"images"` give
the same cached `Image` type from the memoized stats table — and
`resolveShape` fails with a `ValueError` on every unrecognized shape:
non-string scalars, tuples with non-string elements, and keys (of any
arity) absent from the table. -/
theorem claim_C4_shape_table_normalization :
    (∀ (tbl : List (List String × PTy)) (s : String),
      resolveShape tbl (.str s) = resolveShape tbl (.tup [.str s])) ∧
    (∀ (tbl : List (List String × PTy)) (shape : ShapeArg),
      normalizeShape shape = none →
      resolveShape tbl shape = .error (.valueError "Invalid axis argument")) ∧
    (∀ (tbl : List (List String × PTy)) (shape : ShapeArg) (key : List String),
      normalizeShape shape = some key →
      tbl.find? (fun kv => kv.1 == key) = none →
      resolveShape tbl shape = .error (.valueError "Unknown axis")) ∧
    stats_return_type (.str "images") = .ok .ImageT ∧
    stats_return_type (.tup [.str "images"]) = .ok .ImageT ∧
    stats_return_type (.str "pixels") = stats_return_type (.tup [.str "pixels"]) ∧
    stats_return_type (.str "unknown_axis") = .error (.valueError "Unknown axis") ∧
    stats_return_type (.int 5) = .error (.valueError "Invalid axis argument") := by
  refine ⟨?_, ?_, ?_, rfl, rfl, rfl, ?_, rfl⟩
  · intro tbl s
    rfl
  · intro tbl shape h
    simp [resolveShape, h]
  · intro tbl shape key h hf
    simp [resolveShape, h, hf]
  · rfl

/-- Witness for C4: the unrecognized-shape conjuncts applied at concrete
inputs against the memoized stats table. -/
theorem claim_C4_witness :
    resolveShape RESOLVED_STATS_RETURN_TYPES (.int 5) =
      .error (.valueError "Invalid axis argument") ∧
    resolveShape RESOLVED_STATS_RETURN_TYPES (.str "foo") =
      .error (.valueError "Unknown axis") :=
  ⟨claim_C4_shape_table_normalization.2.1 RESOLVED_STATS_RETURN_TYPES (.int 5) rfl,
   claim_C4_shape_table_normalization.2.2.1 RESOLVED_STATS_RETURN_TYPES
     (.str "foo") ["foo"] rfl rfl⟩

/-- C5: whenever `a + b` on two proxy values dispatches to a result, the
result's root node is an Application whose operation name encodes
`__add__` on `a`'s type, with exactly the two arguments `a`'s node then
`b`'s node in that left-then-right order — also when the value was
produced by `b`'s reflected handler, which swaps the order back before
encoding. -/
theorem claim_C5_add_node_order_normalized (pa pb r : ProxyValue)
    (h : dispatchBinary "__add__" (.proxy pa) (.proxy pb) = .value r) :
    r.node = .apply (opName pa.ty "__add__") [pa.node, pb.node] := by
  unfold dispatchBinary at h
  simp only at h
  cases hf : forwardHandler "__add__" pa (.proxy pb) with
  | some r1 =>
    rw [hf] at h
    simp only at h
    cases h
    unfold forwardHandler at hf
    cases ho : opSpec pa.ty "__add__" with
    | none => rw [ho] at hf; simp at hf
    | some ap =>
      rw [ho] at hf
      simp only at hf
      cases hp : promoteAccept (.proxy pb) ap.1 with
      | none => rw [hp] at hf; simp at hf
      | some b2 =>
        rw [hp] at hf
        simp only [Option.some.injEq] at hf
        have hb2 : b2 = pb := promoteAccept_proxy pb b2 ap.1 hp
        subst hb2
        rw [← hf]
  | none =>
    rw [hf] at h
    simp only at h
    cases hr : reflectedHandler "__add__" pb (.proxy pa) with
    | some r1 =>
      rw [hr] at h
      simp only at h
      cases h
      unfold reflectedHandler at hr
      cases ho : opSpec pb.ty "__add__" with
      | none => rw [ho] at hr; simp at hr
      | some ap =>
        rw [ho] at hr
        simp only at hr
        cases hp : promoteAccept (.proxy pa) ap.1 with
        | none => rw [hp] at hr; simp at hr
        | some a2 =>
          rw [hp] at hr
          simp only [Option.some.injEq] at hr
          have ha2 : a2 = pa := promoteAccept_proxy pa a2 ap.1 hp
          subst ha2
          rw [← hr]
    | none =>
      rw [hr] at h
      simp at h

/-- Witness for C5 at `Int(1) + Float(2.0)`. -/
theorem claim_C5_witness :
    (⟨.FloatT, .apply "Int.__add__"
        [.lit (.int 1), .lit (.float 2)]⟩ : ProxyValue).node =
      .apply (opName .IntT "__add__")
        [Node.lit (.int 1), Node.lit (.float 2)] :=
  claim_C5_add_node_order_normalized
    ⟨.IntT, .lit (.int 1)⟩ ⟨.FloatT, .lit (.float 2)⟩
    ⟨.FloatT, .apply "Int.__add__" [.lit (.int 1), .lit (.float 2)]⟩ rfl

/-- C6: when an operator's operand matches none of its acceptable types,
the receiver's handler returns the not-implemented sentinel instead of
raising, so full dispatch runs the other operand's reflected handler; the
caller sees a type error only when neither side's handler accepts the
operands. -/
theorem claim_C6_unsupported_operand_sentinel
    (op : String) (pa : ProxyValue) (b : Value)
    (acc : List PTy) (pol : ResultPolicy)
    (hspec : opSpec pa.ty op = some (acc, pol))
    (hno : promoteAccept b acc = none) :
    forwardHandler op pa b = none ∧
    (∀ pb r, b = .proxy pb → reflectedHandler op pb (.proxy pa) = some r →
       dispatchBinary op (.proxy pa) b = .value r) ∧
    (∀ pb, b = .proxy pb → reflectedHandler op pb (.proxy pa) = none →
       dispatchBinary op (.proxy pa) b = .typeError) ∧
    (∀ n, b = .native n → dispatchBinary op (.proxy pa) b = .typeError) := by
  have hfwd : forwardHandler op pa b = none := by
    simp [forwardHandler, hspec, hno]
  refine ⟨hfwd, ?_, ?_, ?_⟩
  · intro pb r hb hr
    subst hb
    simp [dispatchBinary, hfwd, hr]
  · intro pb hb hr
    subst hb
    simp [dispatchBinary, hfwd, hr]
  · intro n hb
    subst hb
    simp [dispatchBinary, hfwd]

/-- Witness for C6 at `Int(0) + Bool(True)`: the Bool operand matches no
acceptable type, the forward handler yields the sentinel, Bool has no
reflected `__add__` either, and the caller sees the type error. -/
theorem claim_C6_witness :
    forwardHandler "__add__" ⟨.IntT, .lit (.int 0)⟩
      (.proxy ⟨.BoolT, .lit (.bool true)⟩) = none ∧
    dispatchBinary "__add__" (.proxy ⟨.IntT, .lit (.int 0)⟩)
      (.proxy ⟨.BoolT, .lit (.bool true)⟩) = .typeError :=
  ⟨(claim_C6_unsupported_operand_sentinel "__add__" ⟨.IntT, .lit (.int 0)⟩
      (.proxy ⟨.BoolT, .lit (.bool true)⟩) numericAccept .binop rfl rfl).1,
   (claim_C6_unsupported_operand_sentinel "__add__" ⟨.IntT, .lit (.int 0)⟩
      (.proxy ⟨.BoolT, .lit (.bool true)⟩) numericAccept .binop rfl rfl).2.2.1
     ⟨.BoolT, .lit (.bool true)⟩ rfl rfl⟩

/-- C7: `parameter` rejects invalid inputs with `ValueError`: every purely
numeric name is rejected for any type, and every generic type is rejected
for any name. -/
theorem claim_C7_parameter_rejections (name : String) (t : PTy) :
    (pyIsdigit name = true →
      parameter name t = .error (.valueError "Parameter name cannot be a digit")) ∧
    (is_generic t = true → ∃ msg, parameter name t = .error (.valueError msg)) := by
  constructor
  · intro h
    simp [parameter, h]
  · intro h
    by_cases hn : pyIsdigit name
    · exact ⟨"Parameter name cannot be a digit", by simp [parameter, hn]⟩
    · exact ⟨"Parameter type cannot be generic, must be concrete (like List[Int], not plain List)",
        by simp [parameter, hn, h]⟩

/-- Witness for C7 at `parameter("3", Int)` and `parameter("x", List)`. -/
theorem claim_C7_witness :
    parameter "3" .IntT = .error (.valueError "Parameter name cannot be a digit") ∧
    (∃ msg, parameter "x" .ListG = .error (.valueError msg)) :=
  ⟨(claim_C7_parameter_rejections "3" .IntT).1 (by decide),
   (claim_C7_parameter_rejections "x" .ListG).2 rfl⟩

/-- C8: `parameter` performs no graph lookup or binding: for a valid name
and concrete types it returns a fresh proxy value of the declared type
wrapping a KeyRef node keyed by the name, and two calls with the same
name but different declared types both succeed independently. -/
theorem claim_C8_parameter_no_binding (name : String) (t1 t2 : PTy)
    (hn : pyIsdigit name = false)
    (h1 : is_generic t1 = false) (h2 : is_generic t2 = false) :
    parameter name t1 = .ok ⟨t1, .keyref name⟩ ∧
    parameter name t2 = .ok ⟨t2, .keyref name⟩ := by
  constructor <;> simp [parameter, identifier, hn, h1, h2]

/-- Witness for C8: the same name declared as `Int` and as `Float`. -/
theorem claim_C8_witness :
    parameter "scale" .IntT = .ok ⟨.IntT, .keyref "scale"⟩ ∧
    parameter "scale" .FloatT = .ok ⟨.FloatT, .keyref "scale"⟩ :=
  claim_C8_parameter_no_binding "scale" .IntT .FloatT (by decide) rfl rfl

/-- C9: constructing `Int(1) + Float(2.0)` yields a `Float`-typed proxy
value whose graph serializes to exactly three non-root nodes (the two
literals and the add Application) plus the root pointer, and serializing
it twice yields structurally identical output. -/
theorem claim_C9_end_to_end_add :
    construct .IntT (.native (.int 1)) = .ok ⟨.IntT, .lit (.int 1)⟩ ∧
    construct .FloatT (.native (.float 2)) = .ok ⟨.FloatT, .lit (.float 2)⟩ ∧
    dispatchBinary "__add__" (.proxy ⟨.IntT, .lit (.int 1)⟩)
        (.proxy ⟨.FloatT, .lit (.float 2)⟩) =
      .value ⟨.FloatT, .apply "Int.__add__" [.lit (.int 1), .lit (.float 2)]⟩ ∧
    serialize (.apply "Int.__add__" [.lit (.int 1), .lit (.float 2)]) =
      ⟨[("0", .litB (.int 1)), ("1", .litB (.float 2)),
        ("2", .applyB "Int.__add__" ["0", "1"])], "2"⟩ ∧
    (serialize (.apply "Int.__add__" [.lit (.int 1), .lit (.float 2)])).nodes.length = 3 ∧
    serialize (.apply "Int.__add__" [.lit (.int 1), .lit (.float 2)]) =
      serialize (.apply "Int.__add__" [.lit (.int 1), .lit (.float 2)]) :=
  ⟨rfl, rfl, rfl, rfl, rfl, rfl⟩

/-- C10: the purely-numeric name check in `parameter` is exactly
`str.isdigit`: for a concrete type, `parameter` fails with the
numeric-name error precisely when the name is nonempty and all digits,
and names with any non-digit character — including `""`, `"1.5"` and
`"-2"` — yield the KeyRef-backed proxy value. -/
theorem claim_C10_numeric_name_check_is_isdigit (name : String) (t : PTy)
    (hg : is_generic t = false) :
    (parameter name t = .error (.valueError "Parameter name cannot be a digit") ↔
      pyIsdigit name = true) ∧
    (pyIsdigit name = false → parameter name t = .ok ⟨t, .keyref name⟩) ∧
    parameter "" t = .ok ⟨t, .keyref ""⟩ ∧
    parameter "1.5" t = .ok ⟨t, .keyref "1.5"⟩ ∧
    parameter "-2" t = .ok ⟨t, .keyref "-2"⟩ := by
  have hok : ∀ s : String, pyIsdigit s = false → parameter s t = .ok ⟨t, .keyref s⟩ := by
    intro s h
    simp [parameter, identifier, h, hg]
  refine ⟨⟨?_, ?_⟩, hok name, hok "" (by decide), hok "1.5" (by decide),
    hok "-2" (by decide)⟩
  · intro h
    by_cases hn : pyIsdigit name
    · exact hn
    · rw [hok name (by simp [hn])] at h
      cases h
  · intro h
    simp [parameter, h]

/-- Witness for C10 at the concrete type `Int`. -/
theorem claim_C10_witness :
    parameter "" .IntT = .ok ⟨.IntT, .keyref ""⟩ ∧
    parameter "1.5" .IntT = .ok ⟨.IntT, .keyref "1.5"⟩ ∧
    parameter "-2" .IntT = .ok ⟨.IntT, .keyref "-2"⟩ ∧
    parameter "42" .IntT = .error (.valueError "Parameter name cannot be a digit") :=
  ⟨(claim_C10_numeric_name_check_is_isdigit "" .IntT rfl).2.2.1,
   (claim_C10_numeric_name_check_is_isdigit "" .IntT rfl).2.2.2.1,
   (claim_C10_numeric_name_check_is_isdigit "" .IntT rfl).2.2.2.2,
   (claim_C10_numeric_name_check_is_isdigit "42" .IntT rfl).1.mpr (by decide)⟩

end DLW
